import Mathlib

/-!
Verification development for the dLocal API mock (src/app.py): the
request-authentication and local-state-reconciliation engine.

The Python source is shallowly embedded: strings that are hashed are
modelled at the byte level as `List Nat`, Python dicts (parsed JSON) as
association lists over an explicit JSON value type `JVal`, the SQLite
ledger tables as Lean lists of records, and Python exception/crash
behaviour as `Option`/`Except` results.  32-bit machine arithmetic in
SHA-256 is `Nat` arithmetic with explicit reduction modulo `2 ^ 32`.
-/

namespace DlocalMock

/-! ## SHA-256 over byte lists (word arithmetic is Nat mod 2^32)

Models Python's `hashlib.sha256`: FIPS 180-4 SHA-256 over a list of
bytes.  Words are `Nat` values kept below `2 ^ 32` by explicit masking.
-/

/-- The SHA-256 word modulus `2 ^ 32`. -/
def M32 : Nat := 4294967296

/-- Addition modulo `2 ^ 32`. -/
def add32 (a b : Nat) : Nat := (a + b) % M32

/-- Logical right shift of a 32-bit word. -/
def shr32 (n x : Nat) : Nat := (x % M32) >>> n

/-- Right rotation of a 32-bit word by `n` bits. -/
def rotr32 (n x : Nat) : Nat :=
  ((x % M32) >>> n) ||| (((x % M32) <<< (32 - n)) % M32)

/-- Bitwise complement of a 32-bit word. -/
def not32 (x : Nat) : Nat := (M32 - 1) ^^^ (x % M32)

/-- SHA-256 choice function. -/
def shaCh (x y z : Nat) : Nat := (x &&& y) ^^^ (not32 x &&& z)

/-- SHA-256 majority function. -/
def shaMaj (x y z : Nat) : Nat := ((x &&& y) ^^^ (x &&& z)) ^^^ (y &&& z)

/-- SHA-256 big sigma-0. -/
def bigSigma0 (x : Nat) : Nat := rotr32 2 x ^^^ rotr32 13 x ^^^ rotr32 22 x

/-- SHA-256 big sigma-1. -/
def bigSigma1 (x : Nat) : Nat := rotr32 6 x ^^^ rotr32 11 x ^^^ rotr32 25 x

/-- SHA-256 small sigma-0 (message schedule). -/
def smallSigma0 (x : Nat) : Nat := rotr32 7 x ^^^ rotr32 18 x ^^^ shr32 3 x

/-- SHA-256 small sigma-1 (message schedule). -/
def smallSigma1 (x : Nat) : Nat := rotr32 17 x ^^^ rotr32 19 x ^^^ shr32 10 x

/-- The 64 SHA-256 round constants. -/
def SHA_K : List Nat :=
  [1116352408, 1899447441, 3049323471, 3921009573, 961987163, 1508970993,
   2453635748, 2870763221, 3624381080, 310598401, 607225278, 1426881987,
   1925078388, 2162078206, 2614888103, 3248222580, 3835390401, 4022224774,
   264347078, 604807628, 770255983, 1249150122, 1555081692, 1996064986,
   2554220882, 2821834349, 2952996808, 3210313671, 3336571891, 3584528711,
   113926993, 338241895, 666307205, 773529912, 1294757372, 1396182291,
   1695183700, 1986661051, 2177026350, 2456956037, 2730485921, 2820302411,
   3259730800, 3345764771, 3516065817, 3600352804, 4094571909, 275423344,
   430227734, 506948616, 659060556, 883997877, 958139571, 1322822218,
   1537002063, 1747873779, 1955562222, 2024104815, 2227730452, 2361852424,
   2428436474, 2756734187, 3204031479, 3329325298]

/-- The eight SHA-256 working variables. -/
structure Hash8 where
  a : Nat
  b : Nat
  c : Nat
  d : Nat
  e : Nat
  f : Nat
  g : Nat
  h : Nat

/-- The SHA-256 initial hash value. -/
def initHash : Hash8 :=
  ⟨1779033703, 3144134277, 1013904242, 2773480762,
   1359893119, 2600822924, 528734635, 1541459225⟩

/-- SHA-256 padding: append `0x80`, zero bytes, and the 64-bit big-endian
bit length so the total length is a multiple of 64 bytes. -/
def padMessage (msg : List Nat) : List Nat :=
  msg ++ [0x80] ++ List.replicate ((64 - ((msg.length + 9) % 64)) % 64) 0 ++
    (List.range 8).map (fun i => ((8 * msg.length) >>> (8 * (7 - i))) % 256)

/-- Assemble four bytes into one big-endian 32-bit word. -/
def bytesToWord (b0 b1 b2 b3 : Nat) : Nat :=
  ((b0 % 256) <<< 24) + ((b1 % 256) <<< 16) + ((b2 % 256) <<< 8) + (b3 % 256)

/-- Split a 64-byte block into sixteen big-endian words. -/
def blockWords : List Nat → List Nat
  | b0 :: b1 :: b2 :: b3 :: rest => bytesToWord b0 b1 b2 b3 :: blockWords rest
  | _ => []

/-- Iterate a function `n` times. -/
def iterateN (f : α → α) : Nat → α → α
  | 0, x => x
  | n + 1, x => iterateN f n (f x)

/-- One message-schedule extension step.  The accumulator holds the schedule
words most-recent first, so positions 1, 6, 14 and 15 are `w[i-2]`, `w[i-7]`,
`w[i-15]` and `w[i-16]`. -/
def stepW (ws : List Nat) : List Nat :=
  add32 (add32 (smallSigma1 (ws.getD 1 0)) (ws.getD 6 0))
        (add32 (smallSigma0 (ws.getD 14 0)) (ws.getD 15 0)) :: ws

/-- Extend the sixteen block words to the 64-word message schedule. -/
def messageSchedule (block16 : List Nat) : List Nat :=
  (iterateN stepW 48 block16.reverse).reverse

/-- One SHA-256 compression round with round constant and schedule word `kw`. -/
def shaRound (st : Hash8) (kw : Nat × Nat) : Hash8 :=
  let t1 := add32 st.h (add32 (bigSigma1 st.e)
    (add32 (shaCh st.e st.f st.g) (add32 kw.1 kw.2)))
  let t2 := add32 (bigSigma0 st.a) (shaMaj st.a st.b st.c)
  ⟨add32 t1 t2, st.a, st.b, st.c, add32 st.d t1, st.e, st.f, st.g⟩

/-- Compress one 64-byte block into the running hash value. -/
def compressBlock (st : Hash8) (block : List Nat) : Hash8 :=
  let ws := messageSchedule (blockWords block)
  let fin := (SHA_K.zip ws).foldl shaRound st
  ⟨add32 st.a fin.a, add32 st.b fin.b, add32 st.c fin.c, add32 st.d fin.d,
   add32 st.e fin.e, add32 st.f fin.f, add32 st.g fin.g, add32 st.h fin.h⟩

/-- Cut a padded message into 64-byte blocks. -/
def chunks64 : List Nat → List (List Nat)
  | [] => []
  | x :: xs => ((x :: xs).take 64) :: chunks64 ((x :: xs).drop 64)
termination_by l => l.length
decreasing_by
  simp [List.length_drop]
  omega

/-- The four big-endian bytes of a 32-bit word. -/
def wordBytes (w : Nat) : List Nat :=
  [(w >>> 24) % 256, (w >>> 16) % 256, (w >>> 8) % 256, w % 256]

/-- The 32 digest bytes of a final hash value. -/
def hashBytes (st : Hash8) : List Nat :=
  wordBytes st.a ++ wordBytes st.b ++ wordBytes st.c ++ wordBytes st.d ++
  wordBytes st.e ++ wordBytes st.f ++ wordBytes st.g ++ wordBytes st.h

/-- SHA-256 of a byte list: pad, compress each block, emit the digest bytes.
Models Python's `hashlib.sha256(...).digest()`. -/
def sha256 (msg : List Nat) : List Nat :=
  hashBytes ((chunks64 (padMessage msg)).foldl compressBlock initHash)

/-! ## HMAC-SHA256 and the hex digest (src/app.py `generate_signature`) -/

/-- HMAC-SHA256 (RFC 2104) with a 64-byte block size.  Models Python's
`hmac.new(key, message, hashlib.sha256).digest()`. -/
def hmacSha256 (key msg : List Nat) : List Nat :=
  let k0 := if 64 < key.length then sha256 key else key
  let kpad := k0 ++ List.replicate (64 - k0.length) 0
  sha256 ((kpad.map (fun b => (b % 256) ^^^ 0x5c)) ++
    sha256 ((kpad.map (fun b => (b % 256) ^^^ 0x36)) ++ msg))

/-- The sixteen lowercase hexadecimal digits. -/
def hexChars : List Char := "0123456789abcdef".toList

/-- The lowercase hexadecimal digit for a nibble. -/
def hexChar (n : Nat) : Char := hexChars.getD n '0'

/-- Lowercase hexadecimal rendering of a byte list, high nibble first.
Models Python's `.hexdigest()` applied to the digest bytes. -/
def hexOfBytes (bs : List Nat) : List Char :=
  bs.flatMap (fun b => [hexChar ((b / 16) % 16), hexChar (b % 16)])

/-- Embedding of `generate_signature` (src/app.py lines 173-178): the
HMAC-SHA256 hex digest of `login + date_str + body_str` keyed by
`secret_key`.  Strings are modelled as their UTF-8 byte lists; Python's
`f"{login}{date_str}{body_str}".encode()` is the concatenation of the three
encodings, so the message is `login ++ date_str ++ body_str`. -/
def generate_signature (login secret_key date_str body_str : List Nat) : List Char :=
  hexOfBytes (hmacSha256 secret_key (login ++ date_str ++ body_str))

/-! ## JSON values and Python dict operations

Parsed JSON bodies and caller-supplied form dicts are association lists of
`String` keys and `JVal` values; Python's `None` is `JVal.null`. -/

/-- A JSON value as Python's `json` module produces it (numbers restricted to
integers; no claim computes with a float literal). -/
inductive JVal where
  | null : JVal
  | b : Bool → JVal
  | num : Int → JVal
  | s : String → JVal
  | obj : List (String × JVal) → JVal
  | arr : List JVal → JVal

/-- Python dict lookup `d[k]` presence: the first binding for `k`, if any. -/
def dget (fs : List (String × JVal)) (k : String) : Option JVal :=
  (fs.find? (fun p => p.1 == k)).map (fun p => p.2)

/-- Python `d.get(k)`: the stored value, or `None` when the key is absent. -/
def pyGet (fs : List (String × JVal)) (k : String) : JVal :=
  (dget fs k).getD .null

/-- Python `d.get(k, default)`: the stored value (even a stored `None`), or
the default when the key is absent. -/
def pyGetD (fs : List (String × JVal)) (k : String) (d : JVal) : JVal :=
  (dget fs k).getD d

/-- Python truthiness of a JSON value: `None`, `False`, `0`, `""`, `{}` and
`[]` are falsy. -/
def truthy : JVal → Bool
  | .null => false
  | .b v => v
  | .num n => n != 0
  | .s v => !v.isEmpty
  | .obj fs => !fs.isEmpty
  | .arr xs => !xs.isEmpty

/-- Python `isinstance(v, dict)`. -/
def isDict : JVal → Bool
  | .obj _ => true
  | _ => false

/-- Python `v == t` against a string literal: false for non-strings. -/
def jEqStr (v : JVal) (t : String) : Bool :=
  match v with
  | .s w => w == t
  | _ => false

/-- Python `v is True`. -/
def jIsTrue : JVal → Bool
  | .b true => true
  | _ => false

/-- Python `a or b`: `a` when truthy, else `b`. -/
def pyOr (a b : JVal) : JVal := if truthy a then a else b

/-- `v.get(k, d)` when `v` is known to be a dict, with the default for
non-dicts (every use below is guarded by a dict check, as in the source). -/
def jGetD (v : JVal) (k : String) (d : JVal) : JVal :=
  match v with
  | .obj fs => pyGetD fs k d
  | _ => d

/-- Field lookup on a JSON object, `none` on other values. -/
def jlookup (v : JVal) (k : String) : Option JVal :=
  match v with
  | .obj fs => dget fs k
  | _ => none

/-- The keys of a JSON object, in order. -/
def jkeys : JVal → List String
  | .obj fs => fs.map (fun p => p.1)
  | _ => []

mutual

/-- Structural equality of JSON values, as SQLAlchemy key comparison uses it. -/
def jbeq : JVal → JVal → Bool
  | .null, .null => true
  | .b x, .b y => x == y
  | .num x, .num y => x == y
  | .s x, .s y => x == y
  | .obj fs, .obj gs => jbeqFields fs gs
  | .arr xs, .arr ys => jbeqList xs ys
  | _, _ => false

/-- Structural equality of JSON object field lists. -/
def jbeqFields : List (String × JVal) → List (String × JVal) → Bool
  | [], [] => true
  | (k, v) :: fs, (k2, v2) :: gs => k == k2 && jbeq v v2 && jbeqFields fs gs
  | _, _ => false

/-- Structural equality of JSON array element lists. -/
def jbeqList : List JVal → List JVal → Bool
  | [], [] => true
  | x :: xs, y :: ys => jbeq x y && jbeqList xs ys
  | _, _ => false

end

mutual

/-- Serialization of a JSON value as Python's `json.dumps` renders it with the
default `", "` and `": "` separators (string escaping is not modelled; no
claim depends on escaped characters). -/
def jsonDumps : JVal → String
  | .null => "null"
  | .b true => "true"
  | .b false => "false"
  | .num n => toString n
  | .s v => "\"" ++ v ++ "\""
  | .obj fs => "\x7b" ++ jsonDumpsFields fs ++ "\x7d"
  | .arr xs => "[" ++ jsonDumpsList xs ++ "]"

/-- Serialization of the fields of a JSON object. -/
def jsonDumpsFields : List (String × JVal) → String
  | [] => ""
  | [(k, v)] => "\"" ++ k ++ "\": " ++ jsonDumps v
  | (k, v) :: rest => "\"" ++ k ++ "\": " ++ jsonDumps v ++ ", " ++ jsonDumpsFields rest

/-- Serialization of the elements of a JSON array. -/
def jsonDumpsList : List JVal → String
  | [] => ""
  | [x] => jsonDumps x
  | x :: rest => jsonDumps x ++ ", " ++ jsonDumpsList rest

end

/-! ## Transport results and the response normalizer (src/app.py 289-318) -/

/-- A completed HTTP exchange as the `requests` library reports it.
`jsonBody` is the result of `response.json()` when it succeeds, `none` when
the body is not parseable JSON. -/
structure HttpResponse where
  status_code : Nat
  text : String
  jsonBody : Option JVal
  headers : List (String × String)

/-- The `requests` library's `response.ok`: true exactly when
`raise_for_status()` would not raise, i.e. when the status code is below
400 (1xx/2xx/3xx all count as ok). -/
def responseOk (r : HttpResponse) : Bool := r.status_code < 400

/-- Body parsing in `handle_response` and `create_payout`: empty text gives
`{}`, unparseable text gives the raw-text wrapper. -/
def parseBody (r : HttpResponse) : JVal :=
  if r.text.isEmpty then .obj []
  else
    match r.jsonBody with
    | some j => j
    | none => .obj [("raw", .s r.text)]

/-- Embedding of `handle_response` (src/app.py 289-305): the standardized
envelope for a completed exchange. -/
def handle_response (r : HttpResponse) (headers_sent : List (String × String))
    (signature date_str : String) (body_sent : Option JVal) : List (String × JVal) :=
  [("success", .b (responseOk r)),
   ("status_code", .num (r.status_code : Int)),
   ("response", parseBody r),
   ("response_headers", .obj (r.headers.map (fun p => (p.1, JVal.s p.2)))),
   ("headers_sent", .obj ((headers_sent.filter (fun p => p.1 != "Authorization")).map
      (fun p => (p.1, JVal.s p.2)))),
   ("signature", .s signature),
   ("date", .s date_str),
   ("body_sent", match body_sent with | some v => v | none => .null)]

/-- Embedding of `handle_error` (src/app.py 308-318): the envelope built when
the transport call raised a `requests.exceptions.RequestException`, with `e`
the exception's rendering `str(e)`. -/
def handle_error (e : String) (headers_sent : List (String × String))
    (signature date_str : String) (body_sent : Option JVal) : List (String × JVal) :=
  [("success", .b false),
   ("error", .s e),
   ("response_headers", .obj []),
   ("headers_sent", .obj ((headers_sent.filter (fun p => p.1 != "Authorization")).map
      (fun p => (p.1, JVal.s p.2)))),
   ("signature", .s signature),
   ("date", .s date_str),
   ("body_sent", match body_sent with | some v => v | none => .null)]

/-! ## Request composers (src/app.py 201-282, 824-886, 1113-1141) -/

/-- Embedding of `create_remitter_body` (src/app.py 201-240). -/
def create_remitter_body (form_data : List (String × JVal)) : JVal :=
  .obj [
    ("type", .s "REMITTANCE"),
    ("notification_url", pyGetD form_data "notification_url" (.s "")),
    ("attributes", .obj [
      ("external_reference", pyGetD form_data "external_reference" (.s "")),
      ("client", .obj [
        ("type", .s "REMITTER"),
        ("first_name", pyGetD form_data "first_name" (.s "")),
        ("last_name", pyGetD form_data "last_name" (.s "")),
        ("document_type", pyGetD form_data "document_type" (.s "TAX_ID")),
        ("document_number", pyGetD form_data "document_number" (.s "")),
        ("document_country", pyGetD form_data "document_country" (.s "")),
        ("date_of_birth", pyGetD form_data "date_of_birth" (.s "")),
        ("place_of_birth", pyGetD form_data "place_of_birth" (.s "")),
        ("gender", pyGetD form_data "gender" (.s "MALE")),
        ("nationality", pyGetD form_data "nationality" (.s "")),
        ("marital_status", pyGetD form_data "marital_status" (.s "")),
        ("phone", pyGetD form_data "phone" (.s "")),
        ("email", pyGetD form_data "email" (.s "")),
        ("is_pep", pyGetD form_data "is_pep" (.b false)),
        ("is_so", pyGetD form_data "is_so" (.b false)),
        ("profession", pyGetD form_data "profession" (.s "")),
        ("source_of_funds", pyGetD form_data "source_of_funds" (.s "")),
        ("consent", .obj [
          ("type", .s "TERMS_AND_CONDITIONS"),
          ("accepted", pyGetD form_data "consent_accepted" (.b true))]),
        ("address", .obj [
          ("country", pyGetD form_data "address_country" (.s "")),
          ("city", pyGetD form_data "address_city" (.s "")),
          ("zip_code", pyGetD form_data "address_zip_code" (.s "")),
          ("state", pyGetD form_data "address_state" (.s "")),
          ("street_name", pyGetD form_data "address_street_name" (.s "")),
          ("street_number", pyGetD form_data "address_street_number" (.s ""))])])])]

/-- Embedding of `create_beneficiary_body` (src/app.py 243-282): the bank
object carries `code`, `branch` and `account_type` only when truthy in the
input. -/
def create_beneficiary_body (form_data : List (String × JVal)) : JVal :=
  let bank : List (String × JVal) :=
    [("account_number", pyGetD form_data "bank_account_number" (.s ""))] ++
    (if truthy (pyGet form_data "bank_code") then
      [("code", pyGet form_data "bank_code")] else []) ++
    (if truthy (pyGet form_data "bank_branch") then
      [("branch", pyGet form_data "bank_branch")] else []) ++
    (if truthy (pyGet form_data "bank_account_type") then
      [("account_type", pyGet form_data "bank_account_type")] else [])
  .obj [
    ("type", .s "REMITTANCE"),
    ("notification_url", pyGetD form_data "notification_url" (.s "")),
    ("attributes", .obj [
      ("external_reference", pyGetD form_data "external_reference" (.s "")),
      ("client", .obj [
        ("type", .s "BENEFICIARY"),
        ("first_name", pyGetD form_data "first_name" (.s "")),
        ("last_name", pyGetD form_data "last_name" (.s "")),
        ("nationality", pyGetD form_data "nationality" (.s "")),
        ("document_type", pyGetD form_data "document_type" (.s "TAX_ID")),
        ("document_number", pyGetD form_data "document_number" (.s "")),
        ("document_country", pyGetD form_data "document_country" (.s "")),
        ("date_of_birth", pyGetD form_data "date_of_birth" (.s "")),
        ("place_of_birth", pyGetD form_data "place_of_birth" (.s "")),
        ("phone", pyGetD form_data "phone" (.s "")),
        ("email", pyGetD form_data "email" (.s "")),
        ("bank", .obj bank),
        ("address", .obj [
          ("country", pyGetD form_data "address_country" (.s "")),
          ("city", pyGetD form_data "address_city" (.s "")),
          ("state", pyGetD form_data "address_state" (.s "")),
          ("zip_code", pyGetD form_data "address_zip_code" (.s "")),
          ("street_name", pyGetD form_data "address_street_name" (.s "")),
          ("street_number", pyGetD form_data "address_street_number" (.s ""))])])])]

/-- Python `str.replace` availability: `some` for strings, `none` models the
`AttributeError` Python raises when `.replace` is called on a non-string. -/
def pyStr : JVal → Option String
  | .s v => some v
  | _ => none

/-- Python `int(v)`: integers pass through, booleans become 0/1, strings are
parsed (conservatively: plain optionally-signed decimal literals), anything
else raises (`none`). -/
def pyInt : JVal → Option Int
  | .num n => some n
  | .b v => some (if v then 1 else 0)
  | .s v => v.toInt?
  | _ => none

/-- The card object of a payment body (src/app.py 857-879): the token path
forwards token and capture flag; the direct path sanitizes the PAN (spaces
and dashes stripped), coerces expiry fields to integers when truthy and
sets them to `None` otherwise.  `none` models an uncaught Python exception
(non-string card number, unparseable expiry). -/
def create_card_value (cd : List (String × JVal)) : Option JVal :=
  if truthy (pyGet cd "token") then
    let capture_value := pyGetD cd "capture" (.s "true")
    some (.obj [
      ("token", pyGet cd "token"),
      ("capture", .b (jEqStr capture_value "true" || jIsTrue capture_value))])
  else do
    let capture_value := pyGetD cd "capture" (.s "true")
    let numStr ← pyStr (pyGetD cd "number" (.s ""))
    let card_number := (numStr.replace " " "").replace "-" ""
    let expiration_month ←
      if truthy (pyGet cd "expiration_month") then
        (pyInt (pyGet cd "expiration_month")).map JVal.num
      else some JVal.null
    let expiration_year ←
      if truthy (pyGet cd "expiration_year") then
        (pyInt (pyGet cd "expiration_year")).map JVal.num
      else some JVal.null
    some (.obj [
      ("holder_name", pyGetD cd "holder_name" (.s "")),
      ("number", .s card_number),
      ("cvv", pyGetD cd "cvv" (.s "")),
      ("expiration_month", expiration_month),
      ("expiration_year", expiration_year),
      ("capture", .b (jEqStr capture_value "true" || jIsTrue capture_value))])

/-- The optional card binding of a payment body (src/app.py 857-879): added
only when the payment method is CARD and the card data is truthy; a truthy
non-dict card value is an uncaught `AttributeError` (`none`). -/
def create_card_part (payment_data : List (String × JVal)) :
    Option (List (String × JVal)) :=
  if jEqStr (pyGetD payment_data "payment_method_id" (.s "IO")) "CARD" &&
      truthy (pyGet payment_data "card") then
    match pyGet payment_data "card" with
    | .obj cd => (create_card_value cd).map (fun cv => [("card", cv)])
    | _ => none
  else some []

/-- Embedding of the payment body construction in `create_payment`
(src/app.py 824-886).  `none` models an uncaught Python exception while
building the body; field insertion order matches the source (base fields,
optional notification URL, optional card object, optional description,
signature flag). -/
def create_payment_body (payment_data : List (String × JVal)) : Option JVal :=
  let payer : List (String × JVal) :=
    [("name", pyGetD payment_data "payer_name" (.s "")),
     ("document", pyGetD payment_data "payer_document" (.s ""))] ++
    (if truthy (pyGetD payment_data "payer_email" (.s "")) then
      [("email", pyGetD payment_data "payer_email" (.s ""))] else [])
  let body0 : List (String × JVal) :=
    [("amount", pyGet payment_data "amount"),
     ("currency", pyGetD payment_data "currency" (.s "ARS")),
     ("country", pyGetD payment_data "country" (.s "AR")),
     ("payment_method_id", pyGetD payment_data "payment_method_id" (.s "IO")),
     ("payment_method_flow", .s "DIRECT"),
     ("payer", .obj payer),
     ("order_id", pyGetD payment_data "external_reference" (.s "")),
     ("remitter_user_id", pyGet payment_data "remitter_user_id"),
     ("beneficiary_user_id", pyGet payment_data "beneficiary_user_id"),
     ("subpurpose", pyGetD payment_data "subpurpose" (.s "EPREFA")),
     ("source_of_funds", pyGetD payment_data "source_of_funds" (.s "SAVINGS"))]
  let body1 := body0 ++
    (if truthy (pyGet payment_data "notification_url") then
      [("notification_url", pyGet payment_data "notification_url")] else [])
  (create_card_part payment_data).bind (fun cp =>
    some (.obj (body1 ++ cp ++
      (if truthy (pyGet payment_data "description") then
        [("description", pyGet payment_data "description")] else []) ++
      [("signature", .b true)])))

/-- Embedding of the payout body construction in `create_payout`
(src/app.py 1113-1141): fixed defaulted fields plus four presence-gated
optional fields. -/
def create_payout_body (login transaction_key : String)
    (payout_data : List (String × JVal)) : JVal :=
  .obj ([
    ("login", .s login),
    ("pass", .s transaction_key),
    ("external_id", pyGetD payout_data "external_id" (.s "")),
    ("country", pyGetD payout_data "country" (.s "AR")),
    ("bank_code", pyGetD payout_data "bank_code" (.s "0")),
    ("bank_name", pyGetD payout_data "bank_name" (.s "")),
    ("bank_province", pyGetD payout_data "bank_province" (.s "")),
    ("bank_account", pyGetD payout_data "bank_account" (.s "")),
    ("account_type", pyGetD payout_data "account_type" (.s "C")),
    ("amount", pyGetD payout_data "amount" (.s "0.00")),
    ("currency", pyGetD payout_data "currency" (.s "ARS")),
    ("purpose", pyGetD payout_data "purpose" (.s "EPREMT")),
    ("remitter_user_id", pyGetD payout_data "remitter_user_id" (.s "")),
    ("beneficiary_user_id", pyGetD payout_data "beneficiary_user_id" (.s "")),
    ("subpurpose", pyGetD payout_data "subpurpose" (.s "EPREFA")),
    ("source_of_funds", pyGetD payout_data "source_of_funds" (.s "SAVINGS")),
    ("signature", .b true)] ++
    (if truthy (pyGet payout_data "notification_url") then
      [("notification_url", pyGet payout_data "notification_url")] else []) ++
    (if truthy (pyGet payout_data "beneficiary_name") then
      [("beneficiary_name", pyGet payout_data "beneficiary_name")] else []) ++
    (if truthy (pyGet payout_data "beneficiary_document") then
      [("beneficiary_document", pyGet payout_data "beneficiary_document")] else []) ++
    (if truthy (pyGet payout_data "beneficiary_document_type") then
      [("beneficiary_document_type", pyGet payout_data "beneficiary_document_type")] else []))

/-! ## Ledger records and the reconciler (src/app.py 30-155, 449-486, 530-542, 961-997, 1199-1264) -/

/-- Replace the first element satisfying `p` by its image under `f`
(SQLAlchemy `query.filter_by(...).first()` followed by attribute mutation
and commit). -/
def updateFirst (p : α → Bool) (f : α → α) : List α → List α
  | [] => []
  | x :: xs => if p x then f x :: xs else x :: updateFirst p f xs

/-- A row of the `Verification` table (src/app.py 30-43); `id` models the
autoincrement primary key, value fields hold the stored Python values with
`None` as `JVal.null`. -/
structure VerificationRec where
  id : Nat
  verification_id : JVal
  user_id : JVal
  client_type : String
  first_name : JVal
  last_name : JVal
  document_number : JVal
  external_reference : JVal
  status : JVal
  environment : String
  raw_response : String

/-- A row of the `Payment` table (src/app.py 82-98). -/
structure PaymentRec where
  id : Nat
  payment_id : JVal
  order_id : JVal
  amount : JVal
  currency : JVal
  country : JVal
  payment_method_id : JVal
  status : JVal
  status_detail : JVal
  status_code : JVal
  remitter_user_id : JVal
  beneficiary_user_id : JVal
  environment : String
  raw_response : String

/-- A row of the `Payout` table (src/app.py 120-136). -/
structure PayoutRec where
  id : Nat
  external_id : JVal
  payout_id : JVal
  amount : JVal
  currency : JVal
  country : JVal
  bank_account : JVal
  status : JVal
  status_detail : JVal
  remitter_user_id : JVal
  beneficiary_user_id : JVal
  purpose : JVal
  environment : String
  raw_response : String

/-- Embedding of the verification upsert in `create_verification`
(src/app.py 449-486).  Returns the new ledger and the `saved_locally` flag;
`none` models an uncaught Python exception (`.get` on a non-dict response
value), which leaves the committed ledger unchanged. -/
def create_verification_save (resp : HttpResponse) (form_data : List (String × JVal))
    (client_type : String) (use_sandbox : Bool) (ledger : List VerificationRec) :
    Option (List VerificationRec × Bool) :=
  if !responseOk resp then some (ledger, false) else
  match parseBody resp with
  | .obj fs =>
    if !truthy (pyGet fs "id") then some (ledger, false) else
    let verification_id := pyGet fs "id"
    match pyGetD fs "attributes" (.obj []) with
    | .obj attrs =>
      match pyGetD attrs "client" (.obj []) with
      | .obj client =>
        let user_id := pyGet client "id"
        match ledger.find? (fun r => jbeq r.verification_id verification_id) with
        | some _ =>
          some (updateFirst (fun r => jbeq r.verification_id verification_id)
            (fun existing =>
              { existing with
                status := pyGetD fs "status" existing.status
                user_id := if truthy user_id then user_id else existing.user_id
                raw_response := jsonDumps (.obj fs) }) ledger, true)
        | none =>
          some (ledger ++ [{
            id := ledger.length + 1
            verification_id := verification_id
            user_id := user_id
            client_type := client_type
            first_name := pyGetD form_data "first_name" (.s "")
            last_name := pyGetD form_data "last_name" (.s "")
            document_number := pyGetD form_data "document_number" (.s "")
            external_reference := pyGetD form_data "external_reference" (.s "")
            status := pyGetD fs "status" (.s "CREATED")
            environment := if use_sandbox then "sandbox" else "production"
            raw_response := jsonDumps (.obj fs) }], true)
      | _ => none
    | _ => none
  | _ => none

/-- Embedding of the local update in `get_verification` (src/app.py 530-542):
refresh status, set `user_id` only when the response's `attributes.client.id`
is truthy, always refresh the raw response. -/
def get_verification_update (verification_id : String) (resp : HttpResponse)
    (ledger : List VerificationRec) : Option (List VerificationRec) :=
  if !responseOk resp then some ledger else
  match ledger.find? (fun r => jbeq r.verification_id (.s verification_id)) with
  | none => some ledger
  | some _ =>
    match parseBody resp with
    | .obj fs =>
      match pyGetD fs "attributes" (.obj []) with
      | .obj attrs =>
        match pyGetD attrs "client" (.obj []) with
        | .obj client =>
          some (updateFirst (fun r => jbeq r.verification_id (.s verification_id))
            (fun loc =>
              { loc with
                status := pyGetD fs "status" loc.status
                user_id := if truthy (pyGet client "id") then pyGet client "id" else loc.user_id
                raw_response := jsonDumps (.obj fs) }) ledger)
        | _ => none
      | _ => none
    | _ => none

/-- Embedding of the payment upsert in `create_payment` (src/app.py 961-997). -/
def create_payment_save (resp : HttpResponse) (payment_data : List (String × JVal))
    (use_sandbox : Bool) (ledger : List PaymentRec) :
    Option (List PaymentRec × Bool) :=
  if !responseOk resp then some (ledger, false) else
  match parseBody resp with
  | .obj fs =>
    if !truthy (pyGet fs "id") then some (ledger, false) else
    let payment_id := pyGet fs "id"
    match ledger.find? (fun r => jbeq r.payment_id payment_id) with
    | some _ =>
      some (updateFirst (fun r => jbeq r.payment_id payment_id)
        (fun existing =>
          { existing with
            status := pyGetD fs "status" existing.status
            status_detail := pyGetD fs "status_detail" existing.status_detail
            status_code := pyGetD fs "status_code" existing.status_code
            raw_response := jsonDumps (.obj fs) }) ledger, true)
    | none =>
      some (ledger ++ [{
        id := ledger.length + 1
        payment_id := payment_id
        order_id := pyGetD fs "order_id" (pyGet payment_data "external_reference")
        amount := pyGetD fs "amount" (pyGet payment_data "amount")
        currency := pyGetD fs "currency" (pyGet payment_data "currency")
        country := pyGetD fs "country" (pyGet payment_data "country")
        payment_method_id := pyGetD fs "payment_method_id"
          (pyGetD payment_data "payment_method_id" (.s "IO"))
        status := pyGetD fs "status" (.s "CREATED")
        status_detail := pyGetD fs "status_detail" (.s "")
        status_code := pyGetD fs "status_code" (.s "")
        remitter_user_id := pyGet payment_data "remitter_user_id"
        beneficiary_user_id := pyGet payment_data "beneficiary_user_id"
        environment := if use_sandbox then "sandbox" else "production"
        raw_response := jsonDumps (.obj fs) }], true)
  | _ => none

/-- A decimal-literal check standing for the strings Python's `float()`
accepts; conservative (plain unsigned decimal literals with at most one
point), which is all the claims evaluate it on. -/
def isFloatLit (v : String) : Bool :=
  !v.isEmpty && v.toList.all (fun c => c.isDigit || c == '.') &&
    v.toList.count '.' ≤ 1 && v.toList.any Char.isDigit

/-- Python `float(v)` as used on the payout amount: success keeps the operand
(no claim reads the numeric value), failure carries the exception text. -/
def pyFloat : JVal → Except String JVal
  | .num n => .ok (.num n)
  | .b v => .ok (.num (if v then 1 else 0))
  | .s v =>
    if isFloatLit v then .ok (.s v)
    else .error ("could not convert string to float: " ++ v)
  | .null => .error "float() argument must be a string or a real number, not NoneType"
  | .obj _ => .error "float() argument must be a string or a real number, not dict"
  | .arr _ => .error "float() argument must be a string or a real number, not list"

/-- Embedding of the payout-id extraction in `create_payout`
(src/app.py 1206-1212): the first truthy value among the candidate response
fields `id`, `payout_id`, `payment_id`, `cashout_id`, `transaction_id`,
guarded by `response_json and isinstance(response_json, dict)`. -/
def payoutIdFromResponse (response_json : JVal) : JVal :=
  if truthy response_json && isDict response_json then
    match response_json with
    | .obj fs =>
      pyOr (pyGet fs "id") (pyOr (pyGet fs "payout_id") (pyOr (pyGet fs "payment_id")
        (pyOr (pyGet fs "cashout_id") (pyGet fs "transaction_id"))))
    | _ => .null
  else .null

/-- Embedding of `create_payout` after credential validation
(src/app.py 1111-1273): body construction, the transport call outcome
(`Except`: `.error e` is a raised `RequestException` rendered by `str`),
envelope construction, and the guarded, exception-safe save.  Returns the
envelope and the resulting ledger; the embedding is total, so a transport
failure always yields an envelope. -/
def create_payout_step (login transaction_key : String)
    (payout_data : List (String × JVal)) (use_sandbox : Bool)
    (transport : Except String HttpResponse) (ledger : List PayoutRec) :
    List (String × JVal) × List PayoutRec :=
  let body := create_payout_body login transaction_key payout_data
  let url := (if use_sandbox then "https://sandbox.dlocal.com"
    else "https://api.dlocal.com") ++ "/api_curl/cashout_api/request_cashout"
  match transport with
  | .error e =>
    ([("success", .b false), ("error", .s e), ("body_sent", body), ("url", .s url)],
     ledger)
  | .ok resp =>
    let response_json := parseBody resp
    let result : List (String × JVal) :=
      [("success", .b (responseOk resp)),
       ("status_code", .num (resp.status_code : Int)),
       ("response", response_json),
       ("response_headers", .obj (resp.headers.map (fun p => (p.1, JVal.s p.2)))),
       ("body_sent", body),
       ("url", .s url)]
    if responseOk resp then
      let external_id := pyGet payout_data "external_id"
      if truthy external_id then
        let api_payout_id := payoutIdFromResponse response_json
        match ledger.find? (fun r => jbeq r.external_id external_id) with
        | some found =>
          let ledger' := updateFirst (fun r => jbeq r.external_id external_id)
            (fun existing =>
              let existing :=
                if truthy api_payout_id then { existing with payout_id := api_payout_id }
                else existing
              if truthy response_json && isDict response_json then
                { existing with
                  status := jGetD response_json "status" existing.status
                  status_detail := jGetD response_json "status_detail" existing.status_detail
                  raw_response := jsonDumps response_json }
              else existing) ledger
          (result ++ [("saved_locally", .b true), ("local_id", .num (found.id : Int))],
           ledger')
        | none =>
          match pyFloat (pyGetD payout_data "amount" (.s "0.00")) with
          | .error e => (result ++ [("save_error", .s e)], ledger)
          | .ok amountVal =>
            (result ++ [("saved_locally", .b true),
                ("local_id", .num ((ledger.length + 1 : Nat) : Int))],
             ledger ++ [{
               id := ledger.length + 1
               external_id := external_id
               payout_id := api_payout_id
               amount := amountVal
               currency := pyGet payout_data "currency"
               country := pyGet payout_data "country"
               bank_account := pyGet payout_data "bank_account"
               status :=
                 if truthy response_json && isDict response_json then
                   jGetD response_json "status" (.s "PENDING")
                 else .s "PENDING"
               status_detail :=
                 if truthy response_json && isDict response_json then
                   jGetD response_json "status_detail" (.s "")
                 else .s ""
               remitter_user_id := pyGet payout_data "remitter_user_id"
               beneficiary_user_id := pyGet payout_data "beneficiary_user_id"
               purpose := pyGet payout_data "purpose"
               environment := if use_sandbox then "sandbox" else "production"
               raw_response :=
                 if truthy response_json then jsonDumps response_json else "\x7b\x7d" }])
      else (result, ledger)
    else (result, ledger)

/-! ## The payment envelope with its debug block (src/app.py 915-921, 999-1009) -/

/-- The headers `create_payment` sends (src/app.py 915-921); `signature` is
the HMAC hex digest the route computes with `generate_signature`. -/
def payment_headers (login transaction_key signature date_str : String) :
    List (String × String) :=
  [("X-Date", date_str),
   ("X-Login", login),
   ("X-Trans-Key", transaction_key),
   ("Content-Type", "application/json"),
   ("Authorization", "V2-HMAC-SHA256, Signature: " ++ signature)]

/-- The `debug` object `create_payment` attaches to its envelope
(src/app.py 1000-1009).  `prepared_headers` are the headers of the prepared
request as the transport reports them. -/
def create_payment_debug (login date_str body_json : String)
    (headers prepared_headers : List (String × String))
    (use_secure : Bool) (url : String) : JVal :=
  .obj [
    ("endpoint_type", .s (if use_secure then "secure_payments (direct card)"
      else "payments (token/card_id)")),
    ("url", .s url),
    ("message_for_signature", .s (login ++ date_str ++ body_json)),
    ("body_json", .s body_json),
    ("headers_sent", .obj (headers.map (fun p => (p.1, JVal.s p.2)))),
    ("prepared_headers", .obj (prepared_headers.map (fun p => (p.1, JVal.s p.2)))),
    ("prepared_body", .s (body_json.take 500)),
    ("sent_as", .s "json")]

/-- The full envelope `create_payment` returns on a completed exchange
(src/app.py 959, 996-997, 999-1010): the normalized envelope, the save
extras (`saved_locally`/`local_id` when a record was written), then the
debug block carrying the unfiltered request headers. -/
def create_payment_envelope (resp : HttpResponse)
    (login transaction_key signature date_str : String) (body : JVal)
    (prepared_headers : List (String × String)) (saveExtras : List (String × JVal))
    (use_secure : Bool) (url : String) : List (String × JVal) :=
  handle_response resp (payment_headers login transaction_key signature date_str)
      signature date_str (some body) ++
    saveExtras ++
    [("debug", create_payment_debug login date_str (jsonDumps body)
      (payment_headers login transaction_key signature date_str)
      prepared_headers use_secure url)]

/-- A sample stored verification row used to instantiate ledger statements. -/
def sampleVerification : VerificationRec :=
  ⟨1, .s "V1", .s "U1", "REMITTER", .s "Ada", .s "L", .s "123", .s "ext",
   .s "APPROVED", "sandbox", "raw"⟩

/-! ## Theorems: the signer (claim C1) -/

/-- The digest of a final hash value has 32 bytes. -/
theorem length_hashBytes (st : Hash8) : (hashBytes st).length = 32 := by
  simp [hashBytes, wordBytes]

/-- SHA-256 digests have 32 bytes, whatever the message. -/
theorem length_sha256 (msg : List Nat) : (sha256 msg).length = 32 :=
  length_hashBytes _

/-- HMAC-SHA256 digests have 32 bytes. -/
theorem length_hmacSha256 (key msg : List Nat) :
    (hmacSha256 key msg).length = 32 :=
  length_sha256 _

/-- Every nibble renders to one of the sixteen lowercase hex digits. -/
theorem hexChar_contains (n : Nat) : hexChars.contains (hexChar n) = true := by
  unfold hexChar
  rcases Nat.lt_or_ge n 16 with h | h
  · interval_cases n <;> rfl
  · rw [List.getD_eq_default]
    · rfl
    · simpa [hexChars] using h

/-- Hex rendering doubles the length. -/
theorem length_hexOfBytes (bs : List Nat) :
    (hexOfBytes bs).length = 2 * bs.length := by
  induction bs with
  | nil => rfl
  | cons b bs ih =>
    simp only [hexOfBytes, List.flatMap_cons] at ih ⊢
    simp [ih]
    omega

/-- Every character of a hex rendering is a lowercase hex digit. -/
theorem hexOfBytes_all_hex (bs : List Nat) :
    (hexOfBytes bs).all (fun c => hexChars.contains c) = true := by
  induction bs with
  | nil => rfl
  | cons b bs ih =>
    simp only [hexOfBytes, List.flatMap_cons, List.all_append, List.all_cons,
      List.all_nil, Bool.and_eq_true] at ih ⊢
    exact ⟨⟨hexChar_contains _, hexChar_contains _, trivial⟩, ih⟩

/-- C1: `generate_signature` returns the lowercase hexadecimal HMAC-SHA256
digest of the concatenation `identity ++ timestamp ++ body` (body possibly
empty) keyed by the secret; as a pure function of its four inputs it is
deterministic (equal inputs give equal outputs), and its output always has
exactly 64 characters, each one of the sixteen lowercase hexadecimal
digits. -/
theorem claim1_signer_hmac_hex (login secret_key date_str body_str : List Nat) :
    generate_signature login secret_key date_str body_str
        = hexOfBytes (hmacSha256 secret_key (login ++ date_str ++ body_str)) ∧
    (generate_signature login secret_key date_str body_str).length = 64 ∧
    (generate_signature login secret_key date_str body_str).all
        (fun c => hexChars.contains c) = true := by
  refine ⟨rfl, ?_, hexOfBytes_all_hex _⟩
  show (hexOfBytes (hmacSha256 secret_key (login ++ date_str ++ body_str))).length = 64
  rw [length_hexOfBytes, length_hmacSha256]

/-! ## Theorems: transport failure envelopes (claim C4) -/

/-- Filtering out the Authorization pair leaves no Authorization binding. -/
theorem dget_redacted (hs : List (String × String)) :
    dget ((hs.filter (fun p => p.1 != "Authorization")).map
      (fun p => (p.1, JVal.s p.2))) "Authorization" = none := by
  rw [dget, Option.map_eq_none', List.find?_eq_none]
  rintro ⟨k, v⟩ hm
  simp only [List.mem_map, List.mem_filter] at hm
  obtain ⟨⟨k', v'⟩, ⟨hmem, hne⟩, heq⟩ := hm
  cases heq
  simpa using hne

/-- C4 counterexample: the claim states every outbound operation's
transport-failure envelope carries an empty response-header map, but the
payout route's hand-rolled failure envelope has no response-header field at
all (src/app.py 1267-1273), while still being a success=false envelope with
the failure description. -/
theorem claim4_counterexample :
    dget ((create_payout_step "L" "T" [] true (.error "connection error") []).1)
      "response_headers" = none ∧
    dget ((create_payout_step "L" "T" [] true (.error "connection error") []).1)
      "success" = some (.b false) ∧
    dget ((create_payout_step "L" "T" [] true (.error "connection error") []).1)
      "error" = some (.s "connection error") := by
  refine ⟨?_, ?_, ?_⟩ <;> rfl

/-- C4 (amended): a transport-level exception never propagates — both
failure paths are total and return an envelope with success=false, no
status-code field, and the failure description in `error`.  The shared
`handle_error` envelope additionally carries an empty response-header map,
but the payout route's failure envelope omits the response-header field
entirely (and leaves the ledger unchanged). -/
theorem claim4_transport_failure (e : String) (hs : List (String × String))
    (signature date_str : String) (body_sent : Option JVal)
    (login transaction_key : String) (payout_data : List (String × JVal))
    (use_sandbox : Bool) (ledger : List PayoutRec) :
    dget (handle_error e hs signature date_str body_sent) "success"
        = some (.b false) ∧
    dget (handle_error e hs signature date_str body_sent) "status_code" = none ∧
    dget (handle_error e hs signature date_str body_sent) "response_headers"
        = some (.obj []) ∧
    dget (handle_error e hs signature date_str body_sent) "error" = some (.s e) ∧
    (create_payout_step login transaction_key payout_data use_sandbox
        (.error e) ledger).2 = ledger ∧
    dget ((create_payout_step login transaction_key payout_data use_sandbox
        (.error e) ledger).1) "success" = some (.b false) ∧
    dget ((create_payout_step login transaction_key payout_data use_sandbox
        (.error e) ledger).1) "status_code" = none ∧
    dget ((create_payout_step login transaction_key payout_data use_sandbox
        (.error e) ledger).1) "error" = some (.s e) ∧
    dget ((create_payout_step login transaction_key payout_data use_sandbox
        (.error e) ledger).1) "response_headers" = none := by
  refine ⟨?_, ?_, ?_, ?_, ?_, ?_, ?_, ?_, ?_⟩ <;>
    simp [handle_error, create_payout_step, dget, List.find?]

/-! ## Theorems: remote rejection (claim C6) -/

/-- C6 counterexample: the claim requires every completed exchange outside
the 2xx class to yield success=false and no ledger write, but `response.ok`
in the `requests` library is `status_code < 400`, so a 302 response with an
`id` in its body yields a success=true envelope and creates a verification
record. -/
theorem claim6_counterexample :
    ¬ (200 ≤ 302 ∧ 302 < 300) ∧
    dget (handle_response ⟨302, "x", some (.obj [("id", .s "V1")]), []⟩
      [] "sig" "date" none) "success" = some (.b true) ∧
    (create_verification_save ⟨302, "x", some (.obj [("id", .s "V1")]), []⟩
      [] "REMITTER" true []).map (fun p => (p.1.length, p.2)) = some (1, true) := by
  refine ⟨by omega, rfl, rfl⟩

/-- C6 (amended): for every completed exchange with status at least 400
(the statuses `response.ok` rejects — 1xx/2xx/3xx all count as success in
this code), the envelope has success=false and carries the numeric status
code and the parsed body, and none of the reconciliation steps creates or
modifies a ledger record. -/
theorem claim6_remote_rejection (r : HttpResponse) (hs : List (String × String))
    (signature date_str : String) (body_sent : Option JVal)
    (h : 400 ≤ r.status_code) :
    dget (handle_response r hs signature date_str body_sent) "success"
        = some (.b false) ∧
    dget (handle_response r hs signature date_str body_sent) "status_code"
        = some (.num (r.status_code : Int)) ∧
    dget (handle_response r hs signature date_str body_sent) "response"
        = some (parseBody r) ∧
    (∀ fd ct sb l, create_verification_save r fd ct sb l = some (l, false)) ∧
    (∀ vid l, get_verification_update vid r l = some l) ∧
    (∀ pd sb l, create_payment_save r pd sb l = some (l, false)) ∧
    (∀ lo tk pd sb l,
      (create_payout_step lo tk pd sb (.ok r) l).2 = l ∧
      dget ((create_payout_step lo tk pd sb (.ok r) l).1) "success"
          = some (.b false) ∧
      dget ((create_payout_step lo tk pd sb (.ok r) l).1) "status_code"
          = some (.num (r.status_code : Int)) ∧
      dget ((create_payout_step lo tk pd sb (.ok r) l).1) "response"
          = some (parseBody r)) := by
  have hok : responseOk r = false := by
    simp only [responseOk, decide_eq_false_iff_not]
    omega
  refine ⟨?_, ?_, ?_, ?_, ?_, ?_, ?_⟩
  · simp [handle_response, dget, List.find?, hok]
  · simp [handle_response, dget, List.find?]
  · simp [handle_response, dget, List.find?]
  · intro fd ct sb l
    simp [create_verification_save, hok]
  · intro vid l
    simp [get_verification_update, hok]
  · intro pd sb l
    simp [create_payment_save, hok]
  · intro lo tk pd sb l
    refine ⟨?_, ?_, ?_, ?_⟩ <;> simp [create_payout_step, hok, dget, List.find?]

/-- Witness for C6 (amended) at a concrete 404 exchange. -/
theorem claim6_remote_rejection_witness :
    (400 ≤ 404) ∧
    dget (handle_response ⟨404, "", none, []⟩ [] "sig" "date" none) "success"
        = some (.b false) ∧
    create_verification_save ⟨404, "", none, []⟩ [] "REMITTER" true []
        = some ([], false) :=
  ⟨by omega,
   (claim6_remote_rejection ⟨404, "", none, []⟩ [] "sig" "date" none (by decide)).1,
   (claim6_remote_rejection ⟨404, "", none, []⟩ [] "sig" "date" none
     (by decide)).2.2.2.1 [] "REMITTER" true []⟩

/-! ## Theorems: credential redaction (claim C8) -/

/-- Searching an append whose first part has no match searches the rest. -/
theorem find?_append_of_none {p : α → Bool} {l₁ : List α} (l₂ : List α)
    (h : l₁.find? p = none) : (l₁ ++ l₂).find? p = l₂.find? p := by
  induction l₁ with
  | nil => rfl
  | cons x xs ih =>
    rw [List.cons_append]
    cases hp : p x with
    | true => simp [List.find?_cons, hp] at h
    | false =>
      simp only [List.find?_cons, hp] at h ⊢
      exact ih h

/-- Dict lookup across an append whose first part lacks the key. -/
theorem dget_append_of_none {fs : List (String × JVal)} (gs : List (String × JVal))
    (k : String) (h : dget fs k = none) : dget (fs ++ gs) k = dget gs k := by
  rw [dget, Option.map_eq_none'] at h
  rw [dget, dget, find?_append_of_none gs h]

/-- C8 counterexample: the claim states no field of a returned envelope
exposes the Authorization header value, but `create_payment` attaches a
`debug` object whose `headers_sent` copies the outbound headers without
redaction (src/app.py 1000-1009), exposing the full credential. -/
theorem claim8_counterexample :
    ((dget (create_payment_envelope ⟨200, "", none, []⟩ "L" "T" "SIG" "D"
        (.obj []) [] [] false "u") "debug").bind
      (fun d => (jlookup d "headers_sent").bind
        (fun sent => jlookup sent "Authorization")))
      = some (.s "V2-HMAC-SHA256, Signature: SIG") := by
  rfl

/-- C8 (amended): the normalizer's `headers_sent` field always redacts the
Authorization header — for any completed exchange its envelope's
`headers_sent` object has no Authorization key; but the `debug` object the
payment route appends exposes the outbound Authorization header verbatim
(`V2-HMAC-SHA256, Signature: <hex>`). -/
theorem claim8_redaction (r : HttpResponse) (hs : List (String × String))
    (signature date_str : String) (body_sent : Option JVal)
    (login transaction_key sig2 date2 url : String) (body : JVal)
    (prepared_headers : List (String × String)) (saveExtras : List (String × JVal))
    (use_secure : Bool)
    (hextras : saveExtras.find? (fun p => p.1 == "debug") = none) :
    ((dget (handle_response r hs signature date_str body_sent) "headers_sent").bind
      (fun sent => jlookup sent "Authorization")) = none ∧
    ((dget (create_payment_envelope r login transaction_key sig2 date2 body
        prepared_headers saveExtras use_secure url) "debug").bind
      (fun d => (jlookup d "headers_sent").bind
        (fun sent => jlookup sent "Authorization")))
      = some (.s ("V2-HMAC-SHA256, Signature: " ++ sig2)) := by
  constructor
  · have h0 : dget (handle_response r hs signature date_str body_sent) "headers_sent"
        = some (.obj ((hs.filter (fun p => p.1 != "Authorization")).map
          (fun p => (p.1, JVal.s p.2)))) := by
      simp [handle_response, dget, List.find?]
    rw [h0]
    simpa [jlookup] using dget_redacted hs
  · rw [create_payment_envelope, List.append_assoc]
    have h1 : dget (handle_response r
        (payment_headers login transaction_key sig2 date2) sig2 date2 (some body))
        "debug" = none := by
      simp [handle_response, dget, List.find?]
    rw [dget_append_of_none _ _ h1]
    have h2 : dget (saveExtras ++ [("debug", create_payment_debug login date2
        (jsonDumps body) (payment_headers login transaction_key sig2 date2)
        prepared_headers use_secure url)]) "debug"
        = some (create_payment_debug login date2 (jsonDumps body)
          (payment_headers login transaction_key sig2 date2)
          prepared_headers use_secure url) := by
      rw [dget_append_of_none _ _ (by rw [dget, Option.map_eq_none']; exact hextras)]
      rfl
    rw [h2]
    simp [create_payment_debug, payment_headers, jlookup, dget, List.find?]

/-- Witness for C8 (amended) with empty save extras. -/
theorem claim8_redaction_witness :
    (([] : List (String × JVal)).find? (fun p => p.1 == "debug") = none) ∧
    ((dget (handle_response ⟨200, "", none, []⟩
        [("Authorization", "secret")] "s" "d" none) "headers_sent").bind
      (fun sent => jlookup sent "Authorization")) = none :=
  ⟨rfl, (claim8_redaction ⟨200, "", none, []⟩ [("Authorization", "secret")]
    "s" "d" none "L" "T" "SIG" "D" "u" (.obj []) [] [] false rfl).1⟩

/-! ## Theorems: payout save behaviour (claims C7, C9, C10) -/

/-- C10: a successful payout exchange with no caller-supplied `external_id`
(absent or empty) leaves the ledger untouched and returns a success=true
envelope with neither a `saved_locally` nor a `save_error` (nor `local_id`)
field. -/
theorem claim10_no_external_id (login transaction_key : String)
    (payout_data : List (String × JVal)) (use_sandbox : Bool)
    (resp : HttpResponse) (ledger : List PayoutRec)
    (hok : responseOk resp = true)
    (hext : truthy (pyGet payout_data "external_id") = false) :
    (create_payout_step login transaction_key payout_data use_sandbox
        (.ok resp) ledger).2 = ledger ∧
    dget ((create_payout_step login transaction_key payout_data use_sandbox
        (.ok resp) ledger).1) "success" = some (.b true) ∧
    dget ((create_payout_step login transaction_key payout_data use_sandbox
        (.ok resp) ledger).1) "saved_locally" = none ∧
    dget ((create_payout_step login transaction_key payout_data use_sandbox
        (.ok resp) ledger).1) "save_error" = none ∧
    dget ((create_payout_step login transaction_key payout_data use_sandbox
        (.ok resp) ledger).1) "local_id" = none := by
  refine ⟨?_, ?_, ?_, ?_, ?_⟩ <;> simp [create_payout_step, hok, hext, dget, List.find?]

/-- Witness for C10 at a concrete successful exchange with empty payout data. -/
theorem claim10_no_external_id_witness :
    responseOk ⟨200, "", none, []⟩ = true ∧
    truthy (pyGet [] "external_id") = false ∧
    (create_payout_step "L" "T" [] true (.ok ⟨200, "", none, []⟩) []).2 = [] :=
  ⟨rfl, rfl, (claim10_no_external_id "L" "T" [] true ⟨200, "", none, []⟩ [] rfl rfl).1⟩

/-- C7: when persisting a new payout record raises (here: the `float`
conversion of the amount, the embedded exception source), the exception is
caught, the ledger is left unchanged (rollback), and the envelope is still
returned with its HTTP-level success intact plus a `save_error` field
carrying the failure text (and no `saved_locally` flag). -/
theorem claim7_save_error (login transaction_key : String)
    (payout_data : List (String × JVal)) (use_sandbox : Bool)
    (resp : HttpResponse) (ledger : List PayoutRec) (msg : String)
    (hok : responseOk resp = true)
    (hext : truthy (pyGet payout_data "external_id") = true)
    (hmiss : ledger.find? (fun r => jbeq r.external_id
      (pyGet payout_data "external_id")) = none)
    (hfloat : pyFloat (pyGetD payout_data "amount" (.s "0.00")) = .error msg) :
    (create_payout_step login transaction_key payout_data use_sandbox
        (.ok resp) ledger).2 = ledger ∧
    dget ((create_payout_step login transaction_key payout_data use_sandbox
        (.ok resp) ledger).1) "success" = some (.b true) ∧
    dget ((create_payout_step login transaction_key payout_data use_sandbox
        (.ok resp) ledger).1) "save_error" = some (.s msg) ∧
    dget ((create_payout_step login transaction_key payout_data use_sandbox
        (.ok resp) ledger).1) "saved_locally" = none := by
  refine ⟨?_, ?_, ?_, ?_⟩ <;>
    simp [create_payout_step, hok, hext, hmiss, hfloat, dget, List.find?,
      find?_append_of_none]

/-- Witness for C7: amount `"abc"` fails the float conversion; the ledger
stays empty and the envelope keeps success=true with a `save_error`. -/
theorem claim7_save_error_witness :
    truthy (pyGet [("external_id", .s "E1"), ("amount", .s "abc")] "external_id")
        = true ∧
    pyFloat (pyGetD [("external_id", .s "E1"), ("amount", .s "abc")] "amount"
        (.s "0.00")) = .error "could not convert string to float: abc" ∧
    (create_payout_step "L" "T" [("external_id", .s "E1"), ("amount", .s "abc")]
        true (.ok ⟨200, "", none, []⟩) []).2 = [] :=
  ⟨rfl, rfl,
   (claim7_save_error "L" "T" [("external_id", .s "E1"), ("amount", .s "abc")]
     true ⟨200, "", none, []⟩ [] "could not convert string to float: abc"
     rfl rfl rfl rfl).1⟩

/-- C9 counterexample: the claim promises that a response carrying
`cashout_id` but neither `id` nor `payout_id` stores `payout_id` equal to
the `cashout_id` value, but `payment_id` is tried before `cashout_id` in
the candidate chain (src/app.py 1208-1212), so a response with both stores
the `payment_id` value instead. -/
theorem claim9_counterexample :
    dget [("payment_id", JVal.s "P1"), ("cashout_id", JVal.s "C1")] "id" = none ∧
    dget [("payment_id", JVal.s "P1"), ("cashout_id", JVal.s "C1")] "payout_id"
        = none ∧
    dget [("payment_id", JVal.s "P1"), ("cashout_id", JVal.s "C1")] "cashout_id"
        = some (.s "C1") ∧
    ((create_payout_step "L" "T" [("external_id", .s "E1")] true
      (.ok ⟨200, "x",
        some (.obj [("payment_id", .s "P1"), ("cashout_id", .s "C1")]), []⟩)
      []).2.map (fun r => r.payout_id)) = [.s "P1"] ∧
    JVal.s "P1" ≠ JVal.s "C1" := by
  refine ⟨rfl, rfl, rfl, rfl, ?_⟩
  intro h
  injection h with h'
  exact absurd h' (by decide)

/-- C9 (amended): the provider-assigned payout id is looked up by trying the
candidate response fields `id`, `payout_id`, `payment_id`, `cashout_id`,
`transaction_id` in that order, taking the first truthy value; hence a
successful response whose `id`, `payout_id` and `payment_id` are all absent
or falsy but whose `cashout_id` is truthy stores `payout_id` equal to that
`cashout_id` value on record creation. -/
theorem claim9_payout_id_fallback (fs : List (String × JVal))
    (hid : truthy (pyGet fs "id") = false)
    (hpid : truthy (pyGet fs "payout_id") = false)
    (hpay : truthy (pyGet fs "payment_id") = false)
    (hcash : truthy (pyGet fs "cashout_id") = true) :
    payoutIdFromResponse (.obj fs) = pyGet fs "cashout_id" ∧
    ∀ (login transaction_key : String) (payout_data : List (String × JVal))
      (use_sandbox : Bool) (resp : HttpResponse) (ledger : List PayoutRec),
      parseBody resp = .obj fs →
      responseOk resp = true →
      truthy (pyGet payout_data "external_id") = true →
      ledger.find? (fun r => jbeq r.external_id
        (pyGet payout_data "external_id")) = none →
      ∀ amt, pyFloat (pyGetD payout_data "amount" (.s "0.00")) = .ok amt →
      ((create_payout_step login transaction_key payout_data use_sandbox
        (.ok resp) ledger).2.map (fun r => r.payout_id))
        = ledger.map (fun r => r.payout_id) ++ [pyGet fs "cashout_id"] := by
  have hfs : truthy (JVal.obj fs) = true := by
    cases fs with
    | nil => simp [pyGet, dget, List.find?, truthy] at hcash
    | cons a l => simp [truthy]
  have hchain : payoutIdFromResponse (.obj fs) = pyGet fs "cashout_id" := by
    simp [payoutIdFromResponse, hfs, isDict, pyOr, hid, hpid, hpay, hcash]
  refine ⟨hchain, ?_⟩
  intro login transaction_key payout_data use_sandbox resp ledger
    hparse hok hext hmiss amt hfloat
  simp [create_payout_step, hparse, hok, hext, hmiss, hfloat, hchain]

/-- Witness for C9 (amended) on a response carrying only `cashout_id`. -/
theorem claim9_payout_id_fallback_witness :
    truthy (pyGet [("cashout_id", JVal.s "C7")] "cashout_id") = true ∧
    payoutIdFromResponse (.obj [("cashout_id", JVal.s "C7")]) = .s "C7" :=
  ⟨rfl, (claim9_payout_id_fallback [("cashout_id", JVal.s "C7")]
    rfl rfl rfl rfl).1⟩

/-! ## Theorems: field omission in composed bodies (claim C5) -/

/-- Dict lookup across an append when the left part has the key. -/
theorem dget_append_left_some {fs : List (String × JVal)} (gs : List (String × JVal))
    {k : String} {v : JVal} (h : dget fs k = some v) : dget (fs ++ gs) k = some v := by
  induction fs with
  | nil => simp [dget] at h
  | cons a l ih =>
    rw [List.cons_append]
    cases hk : (a.1 == k) with
    | true =>
      simp only [dget, List.find?_cons, hk] at h ⊢
      exact h
    | false =>
      simp only [dget, List.find?_cons, hk] at h ⊢
      exact ih h

/-- Dict lookup misses an append when both parts miss the key. -/
theorem dget_append_none {fs gs : List (String × JVal)} {k : String}
    (h1 : dget fs k = none) (h2 : dget gs k = none) : dget (fs ++ gs) k = none := by
  rw [dget_append_of_none gs k h1]
  exact h2

/-- A conditional singleton with a different key never has the key. -/
theorem dget_ite_single (c : Prop) [Decidable c] (k' : String) (v : JVal)
    (k : String) (h : (k' == k) = false) :
    dget (if c then [(k', v)] else []) k = none := by
  split <;> simp [dget, List.find?, h]

/-- The optional card part is empty or a single `card` binding. -/
theorem create_card_part_shape (pd : List (String × JVal))
    (cp : List (String × JVal)) (h : create_card_part pd = some cp) :
    cp = [] ∨ ∃ cv, cp = [("card", cv)] := by
  rw [create_card_part] at h
  split at h
  · split at h
    · rw [Option.map_eq_some'] at h
      obtain ⟨cv, _, rfl⟩ := h
      exact Or.inr ⟨cv, rfl⟩
    · cases h
  · cases h
    exact Or.inl rfl

/-- C5 counterexample: the claim requires every presence-sensitive field
that is absent from the input to be absent from the body, but a direct-card
payment without expiry fields gets `"expiration_month": null` and
`"expiration_year": null` entries (src/app.py 876-877), and a verification
body without a notification URL gets `"notification_url": ""`
(src/app.py 205). -/
theorem claim5_counterexample :
    ((create_payment_body [("payment_method_id", .s "CARD"),
        ("card", .obj [("number", .s "4111 1111-1111 1111"),
                       ("cvv", .s "123")])]).bind
      (fun body => (jlookup body "card").bind
        (fun card => jlookup card "expiration_month")))
      = some JVal.null ∧
    jlookup (create_remitter_body []) "notification_url" = some (.s "") := by
  exact ⟨rfl, rfl⟩

/-- C5 (amended): absence produces a key-free body for the fields that are
genuinely presence-gated — a payment body composed without a truthy
`description`, payer email or notification URL has no such key (and no
`email` key inside `payer`); a payout body without a truthy notification
URL has no `notification_url` key; a beneficiary bank object omits `code`,
`branch` and `account_type` when absent.  But the direct-card expiry
sub-fields are set to JSON `null` (not omitted) when absent, and the
verification composers always send `notification_url` (empty-string
default), so the claim's full field list is wrong. -/
theorem claim5_omission :
    (∀ pd body, create_payment_body pd = some body →
      (truthy (pyGet pd "description") = false →
        jlookup body "description" = none) ∧
      (truthy (pyGetD pd "payer_email" (.s "")) = false →
        (jlookup body "payer").bind (fun p => jlookup p "email") = none) ∧
      (truthy (pyGet pd "notification_url") = false →
        jlookup body "notification_url" = none)) ∧
    (∀ login transaction_key pd, truthy (pyGet pd "notification_url") = false →
      jlookup (create_payout_body login transaction_key pd) "notification_url"
        = none) ∧
    (∀ fd,
      (truthy (pyGet fd "bank_code") = false →
        ((jlookup (create_beneficiary_body fd) "attributes").bind
          (fun a => (jlookup a "client").bind
            (fun c => (jlookup c "bank").bind
              (fun bank => jlookup bank "code")))) = none) ∧
      (truthy (pyGet fd "bank_branch") = false →
        ((jlookup (create_beneficiary_body fd) "attributes").bind
          (fun a => (jlookup a "client").bind
            (fun c => (jlookup c "bank").bind
              (fun bank => jlookup bank "branch")))) = none) ∧
      (truthy (pyGet fd "bank_account_type") = false →
        ((jlookup (create_beneficiary_body fd) "attributes").bind
          (fun a => (jlookup a "client").bind
            (fun c => (jlookup c "bank").bind
              (fun bank => jlookup bank "account_type")))) = none)) ∧
    (∀ cd ns, truthy (pyGet cd "token") = false →
      truthy (pyGet cd "expiration_month") = false →
      truthy (pyGet cd "expiration_year") = false →
      pyStr (pyGetD cd "number" (.s "")) = some ns →
      ∃ cv, create_card_value cd = some cv ∧
        jlookup cv "expiration_month" = some JVal.null ∧
        jlookup cv "expiration_year" = some JVal.null) := by
  refine ⟨?_, ?_, ?_, ?_⟩
  · intro pd body h
    rw [create_payment_body, Option.bind_eq_some] at h
    obtain ⟨cp, hcp, hbody⟩ := h
    rw [Option.some_inj] at hbody
    subst hbody
    have hcpkeys : ∀ k, ("card" == k) = false → dget cp k = none := by
      intro k hk
      rcases create_card_part_shape pd cp hcp with rfl | ⟨cv, rfl⟩
      · rfl
      · simp [dget, List.find?, hk]
    refine ⟨?_, ?_, ?_⟩
    · intro hdesc
      simp only [jlookup, hdesc, Bool.false_eq_true, if_false, List.append_nil]
      refine dget_append_none (dget_append_none ?_ (hcpkeys _ rfl)) ?_
      · refine dget_append_none ?_ ?_
        · simp [dget, List.find?]
        · exact dget_ite_single _ _ _ _ rfl
      · simp [dget, List.find?]
    · intro hemail
      have hpayer : dget
          ([("amount", pyGet pd "amount"),
            ("currency", pyGetD pd "currency" (.s "ARS")),
            ("country", pyGetD pd "country" (.s "AR")),
            ("payment_method_id", pyGetD pd "payment_method_id" (.s "IO")),
            ("payment_method_flow", .s "DIRECT"),
            ("payer", .obj ([("name", pyGetD pd "payer_name" (.s "")),
              ("document", pyGetD pd "payer_document" (.s ""))] ++
              (if truthy (pyGetD pd "payer_email" (.s "")) then
                [("email", pyGetD pd "payer_email" (.s ""))] else []))),
            ("order_id", pyGetD pd "external_reference" (.s "")),
            ("remitter_user_id", pyGet pd "remitter_user_id"),
            ("beneficiary_user_id", pyGet pd "beneficiary_user_id"),
            ("subpurpose", pyGetD pd "subpurpose" (.s "EPREFA")),
            ("source_of_funds", pyGetD pd "source_of_funds" (.s "SAVINGS"))])
          "payer" = some (.obj ([("name", pyGetD pd "payer_name" (.s "")),
              ("document", pyGetD pd "payer_document" (.s ""))] ++
              (if truthy (pyGetD pd "payer_email" (.s "")) then
                [("email", pyGetD pd "payer_email" (.s ""))] else []))) := by
        simp [dget, List.find?]
      simp only [jlookup, List.append_assoc]
      rw [dget_append_left_some _ hpayer]
      simp only [Option.bind_some, hemail, Bool.false_eq_true, if_false,
        List.append_nil]
      simp [dget, List.find?]
    · intro hnurl
      simp only [jlookup, hnurl, Bool.false_eq_true, if_false, List.append_nil]
      refine dget_append_none (dget_append_none (dget_append_none ?_ ?_) ?_) ?_
      · simp [dget, List.find?]
      · exact hcpkeys "notification_url" (by decide)
      · exact dget_ite_single _ _ _ _ (by decide)
      · simp [dget, List.find?]
  · intro login transaction_key pd hnurl
    simp only [create_payout_body, jlookup, hnurl, Bool.false_eq_true, if_false,
      List.append_nil]
    refine dget_append_none (dget_append_none (dget_append_none ?_ ?_) ?_) ?_
    · simp [dget, List.find?]
    · exact dget_ite_single _ _ _ _ (by decide)
    · exact dget_ite_single _ _ _ _ (by decide)
    · exact dget_ite_single _ _ _ _ (by decide)
  · intro fd
    have hattrs : (jlookup (create_beneficiary_body fd) "attributes").bind
        (fun a => (jlookup a "client").bind (fun c => jlookup c "bank"))
        = some (.obj
          ([("account_number", pyGetD fd "bank_account_number" (.s ""))] ++
          (if truthy (pyGet fd "bank_code") then
            [("code", pyGet fd "bank_code")] else []) ++
          (if truthy (pyGet fd "bank_branch") then
            [("branch", pyGet fd "bank_branch")] else []) ++
          (if truthy (pyGet fd "bank_account_type") then
            [("account_type", pyGet fd "bank_account_type")] else []))) := by
      simp [create_beneficiary_body, jlookup, dget, List.find?]
    refine ⟨?_, ?_, ?_⟩
    · intro hfalse
      have hsplit : ((jlookup (create_beneficiary_body fd) "attributes").bind
          (fun a => (jlookup a "client").bind
            (fun c => (jlookup c "bank").bind (fun bank => jlookup bank "code"))))
          = (((jlookup (create_beneficiary_body fd) "attributes").bind
              (fun a => (jlookup a "client").bind (fun c => jlookup c "bank"))).bind
            (fun bank => jlookup bank "code")) := by
        simp only [Option.bind_assoc]
      rw [hsplit, hattrs]
      simp only [Option.some_bind, jlookup]
      refine dget_append_none (dget_append_none (dget_append_none ?_ ?_) ?_) ?_
      · simp [dget, List.find?]
      · simp [hfalse, dget, List.find?]
      · exact dget_ite_single _ _ _ _ (by decide)
      · exact dget_ite_single _ _ _ _ (by decide)
    · intro hfalse
      have hsplit : ((jlookup (create_beneficiary_body fd) "attributes").bind
          (fun a => (jlookup a "client").bind
            (fun c => (jlookup c "bank").bind (fun bank => jlookup bank "branch"))))
          = (((jlookup (create_beneficiary_body fd) "attributes").bind
              (fun a => (jlookup a "client").bind (fun c => jlookup c "bank"))).bind
            (fun bank => jlookup bank "branch")) := by
        simp only [Option.bind_assoc]
      rw [hsplit, hattrs]
      simp only [Option.some_bind, jlookup]
      refine dget_append_none (dget_append_none (dget_append_none ?_ ?_) ?_) ?_
      · simp [dget, List.find?]
      · exact dget_ite_single _ _ _ _ (by decide)
      · simp [hfalse, dget, List.find?]
      · exact dget_ite_single _ _ _ _ (by decide)
    · intro hfalse
      have hsplit : ((jlookup (create_beneficiary_body fd) "attributes").bind
          (fun a => (jlookup a "client").bind
            (fun c => (jlookup c "bank").bind
              (fun bank => jlookup bank "account_type"))))
          = (((jlookup (create_beneficiary_body fd) "attributes").bind
              (fun a => (jlookup a "client").bind (fun c => jlookup c "bank"))).bind
            (fun bank => jlookup bank "account_type")) := by
        simp only [Option.bind_assoc]
      rw [hsplit, hattrs]
      simp only [Option.some_bind, jlookup]
      refine dget_append_none (dget_append_none (dget_append_none ?_ ?_) ?_) ?_
      · simp [dget, List.find?]
      · exact dget_ite_single _ _ _ _ (by decide)
      · exact dget_ite_single _ _ _ _ (by decide)
      · simp [hfalse, dget, List.find?]
  · intro cd ns htok hem hey hnum
    have hcv : create_card_value cd = some (.obj [
        ("holder_name", pyGetD cd "holder_name" (.s "")),
        ("number", .s ((ns.replace " " "").replace "-" "")),
        ("cvv", pyGetD cd "cvv" (.s "")),
        ("expiration_month", JVal.null),
        ("expiration_year", JVal.null),
        ("capture", .b (jEqStr (pyGetD cd "capture" (.s "true")) "true" ||
          jIsTrue (pyGetD cd "capture" (.s "true"))))]) := by
      rw [create_card_value]
      simp [htok, hem, hey, hnum]
    exact ⟨_, hcv, by simp [jlookup, dget, List.find?],
      by simp [jlookup, dget, List.find?]⟩

/-- Witness for C5 (amended): a payout body composed without a notification
URL has no `notification_url` key. -/
theorem claim5_omission_witness :
    truthy (pyGet [] "notification_url") = false ∧
    jlookup (create_payout_body "L" "T" []) "notification_url" = none :=
  ⟨rfl, claim5_omission.2.1 "L" "T" [] rfl⟩

/-! ## Theorems: user_id monotonicity (claim C3) -/

/-- After `updateFirst`, each position holds the old element or its image. -/
theorem updateFirst_get? (p : α → Bool) (f : α → α) (l : List α) (i : Nat) :
    (updateFirst p f l).get? i = l.get? i ∨
    (∃ x, l.get? i = some x ∧ (updateFirst p f l).get? i = some (f x)) := by
  induction l generalizing i with
  | nil => exact Or.inl rfl
  | cons x xs ih =>
    rw [updateFirst]
    by_cases hp : p x = true
    · rw [if_pos hp]
      cases i with
      | zero => exact Or.inr ⟨x, rfl, rfl⟩
      | succ n => exact Or.inl rfl
    · rw [if_neg hp]
      cases i with
      | zero => exact Or.inl rfl
      | succ n => simpa using ih n

/-- C3 counterexample: the claim states `user_id` is assigned only when the
response carries a non-empty client identifier, but the create path of the
verification upsert assigns `client.id` unconditionally (src/app.py 456,
478), so a response with `attributes.client.id = ""` creates a record whose
`user_id` is the stored empty string — an assignment with an empty
identifier. -/
theorem claim3_counterexample :
    ((create_verification_save ⟨200, "x", some (.obj [("id", .s "V1"),
        ("status", .s "APPROVED"),
        ("attributes", .obj [("client", .obj [("id", .s "")])])]), []⟩
      [] "REMITTER" true []).map (fun p => p.1.map (fun r => r.user_id)))
      = some [JVal.s ""] ∧
    truthy (JVal.s "") = false :=
  ⟨rfl, rfl⟩

/-- C3 (amended): on both reconciliation paths that touch stored
verification records (the create-verification upsert and the
get-verification update), every pre-existing record's `user_id` is either
left unchanged or overwritten with a truthy (non-empty, non-null) value —
so a stored non-empty `user_id` is never cleared or replaced by an empty or
absent one.  (On record creation, however, `user_id` is initialized to the
response's client identifier verbatim, which may be empty or absent.) -/
theorem claim3_user_id_monotone :
    (∀ resp fd ct sb (l l' : List VerificationRec) (flag : Bool),
      create_verification_save resp fd ct sb l = some (l', flag) →
      ∀ i r r', l.get? i = some r → l'.get? i = some r' →
        (r'.user_id = r.user_id ∨ truthy r'.user_id = true)) ∧
    (∀ vid resp (l l' : List VerificationRec),
      get_verification_update vid resp l = some l' →
      ∀ i r r', l.get? i = some r → l'.get? i = some r' →
        (r'.user_id = r.user_id ∨ truthy r'.user_id = true)) := by
  have hsame : ∀ (l : List VerificationRec) i r r', l.get? i = some r →
      l.get? i = some r' → (r'.user_id = r.user_id ∨ truthy r'.user_id = true) := by
    intro l i r r' hr hr'
    rw [hr, Option.some_inj] at hr'
    exact Or.inl (congrArg VerificationRec.user_id hr'.symm)
  have happend : ∀ (l : List VerificationRec) (x : VerificationRec) i r r',
      l.get? i = some r → (l ++ [x]).get? i = some r' →
      (r'.user_id = r.user_id ∨ truthy r'.user_id = true) := by
    intro l x i r r' hr hr'
    obtain ⟨hlt, -⟩ := List.get?_eq_some.mp hr
    rw [List.get?_append hlt] at hr'
    exact hsame l i r r' hr hr'
  have hupd : ∀ (p : VerificationRec → Bool) (u : JVal)
      (g : VerificationRec → JVal) (rw2 : VerificationRec → String)
      (l : List VerificationRec) i r r', l.get? i = some r →
      (updateFirst p (fun ex =>
        { ex with status := g ex,
                  user_id := if truthy u then u else ex.user_id,
                  raw_response := rw2 ex }) l).get? i = some r' →
      (r'.user_id = r.user_id ∨ truthy r'.user_id = true) := by
    intro p u g rw2 l i r r' hr hr'
    rcases updateFirst_get? p (fun ex =>
        { ex with status := g ex,
                  user_id := if truthy u then u else ex.user_id,
                  raw_response := rw2 ex }) l i with heq | ⟨x, hx, hfx⟩
    · rw [heq] at hr'
      exact hsame l i r r' hr hr'
    · rw [hx, Option.some_inj] at hr
      subst hr
      rw [hfx, Option.some_inj] at hr'
      subst hr'
      by_cases htu : truthy u = true
      · right
        simp [htu]
      · left
        simp [htu]
  constructor
  · intro resp fd ct sb l l' flag h i r r' hr hr'
    rw [create_verification_save] at h
    by_cases hok : responseOk resp = true
    · rw [hok] at h
      simp only [Bool.not_true, Bool.false_eq_true, if_false] at h
      split at h
      next fs heq =>
        by_cases hid : truthy (pyGet fs "id") = true
        · rw [hid] at h
          simp only [Bool.not_true, Bool.false_eq_true, if_false] at h
          split at h
          next attrs hattrs =>
            split at h
            next client hclient =>
              split at h
              next found hfind =>
                rw [Option.some_inj, Prod.mk.injEq] at h
                obtain ⟨h1, -⟩ := h
                subst h1
                exact hupd _ _ _ _ l i r r' hr hr'
              next hfind =>
                rw [Option.some_inj, Prod.mk.injEq] at h
                obtain ⟨h1, -⟩ := h
                subst h1
                exact happend l _ i r r' hr hr'
            next => cases h
          next => cases h
        · rw [eq_false_of_ne_true hid] at h
          simp only [Bool.not_false, if_true, Option.some_inj,
            Prod.mk.injEq] at h
          obtain ⟨h1, -⟩ := h
          subst h1
          exact hsame l i r r' hr hr'
      next => cases h
    · rw [eq_false_of_ne_true hok] at h
      simp only [Bool.not_false, if_true, Option.some_inj, Prod.mk.injEq] at h
      obtain ⟨h1, -⟩ := h
      subst h1
      exact hsame l i r r' hr hr'
  · intro vid resp l l' h i r r' hr hr'
    rw [get_verification_update] at h
    by_cases hok : responseOk resp = true
    · rw [hok] at h
      simp only [Bool.not_true, Bool.false_eq_true, if_false] at h
      split at h
      next hfind =>
        rw [Option.some_inj] at h
        subst h
        exact hsame l i r r' hr hr'
      next found hfind =>
        split at h
        next fs heq =>
          split at h
          next attrs hattrs =>
            split at h
            next client hclient =>
              rw [Option.some_inj] at h
              subst h
              exact hupd _ _ _ _ l i r r' hr hr'
            next => cases h
          next => cases h
        next => cases h
    · rw [eq_false_of_ne_true hok] at h
      simp only [Bool.not_false, if_true, Option.some_inj] at h
      subst h
      exact hsame l i r r' hr hr'

/-- Witness for C3 (amended): a not-ok exchange leaves the ledger unchanged
and the stored record's `user_id` is untouched. -/
theorem claim3_user_id_monotone_witness :
    create_verification_save ⟨500, "", none, []⟩ [] "REMITTER" true
        [sampleVerification] = some ([sampleVerification], false) ∧
    (sampleVerification.user_id = sampleVerification.user_id ∨
      truthy sampleVerification.user_id = true) :=
  ⟨rfl, claim3_user_id_monotone.1 ⟨500, "", none, []⟩ [] "REMITTER" true
    [sampleVerification] [sampleVerification] false rfl 0 sampleVerification
    sampleVerification rfl rfl⟩

/-! ## Theorems: reconciliation idempotence (claim C2) -/

/-- Updating the first match in `l ++ [x]` when `l` has no match and `x`
matches rewrites exactly the last element. -/
theorem updateFirst_append_last (p : α → Bool) (f : α → α) :
    ∀ (l : List α) (x : α), (∀ y ∈ l, ¬ p y = true) → p x = true →
      updateFirst p f (l ++ [x]) = l ++ [f x]
  | [], x, _, hx => by simp [updateFirst, hx]
  | a :: as, x, hl, hx => by
    have ha : ¬ p a = true := hl a (List.mem_cons_self a as)
    rw [List.cons_append, updateFirst, if_neg ha,
      updateFirst_append_last p f as x
        (fun y hy => hl y (List.mem_cons_of_mem a hy)) hx,
      List.cons_append]

/-- A no-match list followed by a matching element finds that element. -/
theorem find?_append_last (p : α → Bool) (l : List α) (x : α)
    (hl : l.find? p = none) (hx : p x = true) :
    (l ++ [x]).find? p = some x := by
  rw [find?_append_of_none _ hl]
  simp [List.find?, hx]

/-- A list with no match has zero matches. -/
theorem countP_of_find?_none (p : α → Bool) (l : List α)
    (hl : l.find? p = none) : l.countP p = 0 :=
  List.countP_eq_zero.mpr (List.find?_eq_none.mp hl)

/-- C2: reconciling the same successful response twice, starting from a
ledger without the identifying key, creates exactly one record on the first
application (key count goes from 0 to 1), adds no record on the second
(same length, key count still 1), and after each application the stored
`raw_response` is the serialization of the latest response.  Stated for the
verification, payment and payout reconcilers. -/
theorem claim2_reconcile_idempotent :
    (∀ (resp : HttpResponse) fd ct sb (l : List VerificationRec)
      (fs attrs client : List (String × JVal)) (idv : String),
      responseOk resp = true →
      parseBody resp = .obj fs →
      dget fs "id" = some (.s idv) →
      truthy (JVal.s idv) = true →
      pyGetD fs "attributes" (.obj []) = .obj attrs →
      pyGetD attrs "client" (.obj []) = .obj client →
      l.find? (fun r => jbeq r.verification_id (.s idv)) = none →
      ∃ r₁ r₂ : VerificationRec,
        create_verification_save resp fd ct sb l = some (l ++ [r₁], true) ∧
        r₁.verification_id = .s idv ∧
        r₁.raw_response = jsonDumps (.obj fs) ∧
        create_verification_save resp fd ct sb (l ++ [r₁])
          = some (l ++ [r₂], true) ∧
        r₂.verification_id = .s idv ∧
        r₂.raw_response = jsonDumps (.obj fs) ∧
        (l ++ [r₁]).countP (fun r => jbeq r.verification_id (.s idv)) = 1 ∧
        (l ++ [r₂]).countP (fun r => jbeq r.verification_id (.s idv)) = 1 ∧
        (l ++ [r₂]).length = (l ++ [r₁]).length) ∧
    (∀ (resp : HttpResponse) pd sb (l : List PaymentRec)
      (fs : List (String × JVal)) (idv : String),
      responseOk resp = true →
      parseBody resp = .obj fs →
      dget fs "id" = some (.s idv) →
      truthy (JVal.s idv) = true →
      l.find? (fun r => jbeq r.payment_id (.s idv)) = none →
      ∃ r₁ r₂ : PaymentRec,
        create_payment_save resp pd sb l = some (l ++ [r₁], true) ∧
        r₁.payment_id = .s idv ∧
        r₁.raw_response = jsonDumps (.obj fs) ∧
        create_payment_save resp pd sb (l ++ [r₁]) = some (l ++ [r₂], true) ∧
        r₂.payment_id = .s idv ∧
        r₂.raw_response = jsonDumps (.obj fs) ∧
        (l ++ [r₁]).countP (fun r => jbeq r.payment_id (.s idv)) = 1 ∧
        (l ++ [r₂]).countP (fun r => jbeq r.payment_id (.s idv)) = 1 ∧
        (l ++ [r₂]).length = (l ++ [r₁]).length) ∧
    (∀ (login transaction_key : String) (pd : List (String × JVal)) sb
      (resp : HttpResponse) (l : List PayoutRec)
      (rfs : List (String × JVal)) (eid : String) (amt : JVal),
      responseOk resp = true →
      parseBody resp = .obj rfs →
      dget pd "external_id" = some (.s eid) →
      truthy (JVal.s eid) = true →
      pyFloat (pyGetD pd "amount" (.s "0.00")) = .ok amt →
      l.find? (fun r => jbeq r.external_id (.s eid)) = none →
      ∃ r₁ r₂ : PayoutRec,
        (create_payout_step login transaction_key pd sb (.ok resp) l).2
          = l ++ [r₁] ∧
        r₁.external_id = .s eid ∧
        r₁.raw_response = jsonDumps (.obj rfs) ∧
        (create_payout_step login transaction_key pd sb (.ok resp)
          (l ++ [r₁])).2 = l ++ [r₂] ∧
        r₂.external_id = .s eid ∧
        r₂.raw_response = jsonDumps (.obj rfs) ∧
        (l ++ [r₁]).countP (fun r => jbeq r.external_id (.s eid)) = 1 ∧
        (l ++ [r₂]).countP (fun r => jbeq r.external_id (.s eid)) = 1 ∧
        (l ++ [r₂]).length = (l ++ [r₁]).length) := by
  refine ⟨?_, ?_, ?_⟩
  · intro resp fd ct sb l fs attrs client idv hok hparse hid hidt hattrs
      hclient hmiss
    have hidv : pyGet fs "id" = .s idv := by rw [pyGet, hid]; rfl
    have hpr1 : jbeq (JVal.s idv) (JVal.s idv) = true := by simp [jbeq]
    have he1x : ∃ r₁ : VerificationRec,
        create_verification_save resp fd ct sb l = some (l ++ [r₁], true) ∧
        r₁.verification_id = .s idv ∧
        r₁.raw_response = jsonDumps (.obj fs) := by
      simp only [create_verification_save, hok, Bool.not_true,
        Bool.false_eq_true, if_false, hparse, hidv, hidt, hattrs, hclient,
        hmiss]
      exact ⟨_, rfl, rfl, rfl⟩
    obtain ⟨r₁, he1, hv1, hw1⟩ := he1x
    have hpr : jbeq r₁.verification_id (JVal.s idv) = true := by
      rw [hv1]; exact hpr1
    have he2x : ∃ r₂ : VerificationRec,
        create_verification_save resp fd ct sb (l ++ [r₁])
          = some (l ++ [r₂], true) ∧
        r₂.verification_id = r₁.verification_id ∧
        r₂.raw_response = jsonDumps (.obj fs) := by
      simp only [create_verification_save, hok, Bool.not_true,
        Bool.false_eq_true, if_false, hparse, hidv, hidt, hattrs, hclient]
      simp only [find?_append_last _ _ _ hmiss hpr,
        updateFirst_append_last _ _ _ _ (List.find?_eq_none.mp hmiss) hpr]
      exact ⟨_, rfl, rfl, rfl⟩
    obtain ⟨r₂, he2, hv2, hw2⟩ := he2x
    have hpr2 : jbeq r₂.verification_id (JVal.s idv) = true := by
      rw [hv2, hv1]; exact hpr1
    refine ⟨r₁, r₂, he1, hv1, hw1, he2, hv2.trans hv1, hw2, ?_, ?_, ?_⟩
    · rw [List.countP_append, countP_of_find?_none _ _ hmiss]
      simp [List.countP_cons, hpr]
    · rw [List.countP_append, countP_of_find?_none _ _ hmiss]
      simp [List.countP_cons, hpr2]
    · simp
  · intro resp pd sb l fs idv hok hparse hid hidt hmiss
    have hidv : pyGet fs "id" = .s idv := by rw [pyGet, hid]; rfl
    have hpr1 : jbeq (JVal.s idv) (JVal.s idv) = true := by simp [jbeq]
    have he1x : ∃ r₁ : PaymentRec,
        create_payment_save resp pd sb l = some (l ++ [r₁], true) ∧
        r₁.payment_id = .s idv ∧
        r₁.raw_response = jsonDumps (.obj fs) := by
      simp only [create_payment_save, hok, Bool.not_true, Bool.false_eq_true,
        if_false, hparse, hidv, hidt, hmiss]
      exact ⟨_, rfl, rfl, rfl⟩
    obtain ⟨r₁, he1, hv1, hw1⟩ := he1x
    have hpr : jbeq r₁.payment_id (JVal.s idv) = true := by
      rw [hv1]; exact hpr1
    have he2x : ∃ r₂ : PaymentRec,
        create_payment_save resp pd sb (l ++ [r₁]) = some (l ++ [r₂], true) ∧
        r₂.payment_id = r₁.payment_id ∧
        r₂.raw_response = jsonDumps (.obj fs) := by
      simp only [create_payment_save, hok, Bool.not_true, Bool.false_eq_true,
        if_false, hparse, hidv, hidt]
      simp only [find?_append_last _ _ _ hmiss hpr,
        updateFirst_append_last _ _ _ _ (List.find?_eq_none.mp hmiss) hpr]
      exact ⟨_, rfl, rfl, rfl⟩
    obtain ⟨r₂, he2, hv2, hw2⟩ := he2x
    have hpr2 : jbeq r₂.payment_id (JVal.s idv) = true := by
      rw [hv2, hv1]; exact hpr1
    refine ⟨r₁, r₂, he1, hv1, hw1, he2, hv2.trans hv1, hw2, ?_, ?_, ?_⟩
    · rw [List.countP_append, countP_of_find?_none _ _ hmiss]
      simp [List.countP_cons, hpr]
    · rw [List.countP_append, countP_of_find?_none _ _ hmiss]
      simp [List.countP_cons, hpr2]
    · simp
  · intro login transaction_key pd sb resp l rfs eid amt hok hparse hext
      hextt hfloat hmiss
    have heidv : pyGet pd "external_id" = .s eid := by rw [pyGet, hext]; rfl
    have hpr1 : jbeq (JVal.s eid) (JVal.s eid) = true := by simp [jbeq]
    have hraw1 : (if truthy (JVal.obj rfs) then jsonDumps (.obj rfs)
        else "\x7b\x7d") = jsonDumps (.obj rfs) := by
      cases rfs with
      | nil => simp [truthy, jsonDumps, jsonDumpsFields]
      | cons a as => simp [truthy]
    have he1x : ∃ r₁ : PayoutRec,
        (create_payout_step login transaction_key pd sb (.ok resp) l).2
          = l ++ [r₁] ∧
        r₁.external_id = .s eid ∧
        r₁.raw_response = jsonDumps (.obj rfs) := by
      simp only [create_payout_step, hok, if_true, hparse, heidv, hextt,
        hmiss, hfloat]
      exact ⟨_, rfl, rfl, hraw1⟩
    obtain ⟨r₁, he1, hv1, hw1⟩ := he1x
    have hpr : jbeq r₁.external_id (JVal.s eid) = true := by
      rw [hv1]; exact hpr1
    have he2x : ∃ r₂ : PayoutRec,
        (create_payout_step login transaction_key pd sb (.ok resp)
          (l ++ [r₁])).2 = l ++ [r₂] ∧
        r₂.external_id = r₁.external_id ∧
        r₂.raw_response = jsonDumps (.obj rfs) := by
      simp only [create_payout_step, hok, if_true, hparse, heidv, hextt]
      simp only [find?_append_last _ _ _ hmiss hpr,
        updateFirst_append_last _ _ _ _ (List.find?_eq_none.mp hmiss) hpr]
      refine ⟨_, rfl, ?_, ?_⟩
      · cases rfs with
        | nil =>
          by_cases h1 : truthy (payoutIdFromResponse (JVal.obj [])) = true
          · rw [if_pos h1]; simp [truthy, isDict]
          · rw [if_neg h1]; simp [truthy, isDict]
        | cons a as =>
          by_cases h1 :
              truthy (payoutIdFromResponse (JVal.obj (a :: as))) = true
          · rw [if_pos h1]; simp [truthy, isDict]
          · rw [if_neg h1]; simp [truthy, isDict]
      · cases rfs with
        | nil =>
          by_cases h1 : truthy (payoutIdFromResponse (JVal.obj [])) = true
          · rw [if_pos h1]; simp [truthy, isDict, hw1]
          · rw [if_neg h1]; simp [truthy, isDict, hw1]
        | cons a as =>
          by_cases h1 :
              truthy (payoutIdFromResponse (JVal.obj (a :: as))) = true
          · rw [if_pos h1]; simp [truthy, isDict]
          · rw [if_neg h1]; simp [truthy, isDict]
    obtain ⟨r₂, he2, hv2, hw2⟩ := he2x
    have hpr2 : jbeq r₂.external_id (JVal.s eid) = true := by
      rw [hv2, hv1]; exact hpr1
    refine ⟨r₁, r₂, he1, hv1, hw1, he2, hv2.trans hv1, hw2, ?_, ?_, ?_⟩
    · rw [List.countP_append, countP_of_find?_none _ _ hmiss]
      simp [List.countP_cons, hpr]
    · rw [List.countP_append, countP_of_find?_none _ _ hmiss]
      simp [List.countP_cons, hpr2]
    · simp

/-- Witness for C2 at concrete successful responses against empty ledgers:
each reconciler actually creates a record. -/
theorem claim2_reconcile_idempotent_witness :
    (create_verification_save ⟨200, "x", some (.obj [("id", .s "V1"),
        ("status", .s "APPROVED"),
        ("attributes", .obj [("client", .obj [("id", .s "U1")])])]), []⟩
      [] "REMITTER" true []).isSome = true ∧
    (create_payment_save ⟨200, "x", some (.obj [("id", .s "P1")]), []⟩
      [] true []).isSome = true ∧
    ((create_payout_step "L" "T" [("external_id", .s "E1")] true
      (.ok ⟨200, "x", some (.obj [("status", .s "OK")]), []⟩) []).2).length
      = 1 := by
  refine ⟨?_, ?_, ?_⟩
  · obtain ⟨r₁, r₂, he1, -⟩ := claim2_reconcile_idempotent.1
      ⟨200, "x", some (.obj [("id", .s "V1"), ("status", .s "APPROVED"),
        ("attributes", .obj [("client", .obj [("id", .s "U1")])])]), []⟩
      [] "REMITTER" true []
      [("id", .s "V1"), ("status", .s "APPROVED"),
        ("attributes", .obj [("client", .obj [("id", .s "U1")])])]
      [("client", .obj [("id", .s "U1")])] [("id", .s "U1")] "V1"
      rfl rfl rfl rfl rfl rfl rfl
    rw [he1]
    rfl
  · obtain ⟨r₁, r₂, he1, -⟩ := claim2_reconcile_idempotent.2.1
      ⟨200, "x", some (.obj [("id", .s "P1")]), []⟩ [] true []
      [("id", .s "P1")] "P1" rfl rfl rfl rfl rfl
    rw [he1]
    rfl
  · obtain ⟨r₁, r₂, he1, -⟩ := claim2_reconcile_idempotent.2.2
      "L" "T" [("external_id", .s "E1")] true
      ⟨200, "x", some (.obj [("status", .s "OK")]), []⟩ []
      [("status", .s "OK")] "E1" (.s "0.00") rfl rfl rfl rfl rfl rfl
    rw [he1]
    rfl

end DlocalMock
